import Mathlib

/-!
Shallow embedding of the ForecastHOL repository
(`generate_hvac_data.py`, `forecast_comparison_dashboard.py`).

Python floats are modelled as exact rationals; Gaussian and uniform draws of
the numpy random generator are modelled as universally quantified rational
parameters (a draw can be any real number, and every concrete draw used in a
witness is rational).  The value `sin(2*pi*week/52)` is transcendental, so the
functions that consume it take the sine value as an explicit parameter
constrained to `[-1, 1]`; at weeks 0, 13, 26, 39 the sine is exactly
0, 1, 0, -1, which the concrete witnesses use.  The Python `int()` conversion
truncates toward zero and is modelled by `ratTrunc`.
-/

namespace ForecastHOL

/-- Truncation toward zero, the behaviour of the Python `int()` conversion on
a real number: floor for non-negative arguments, ceiling for negative ones. -/
def ratTrunc (x : ℚ) : ℤ :=
  if 0 ≤ x then ⌊x⌋ else ⌈x⌉

theorem ratTrunc_mono {x y : ℚ} (h : x ≤ y) : ratTrunc x ≤ ratTrunc y := by
  unfold ratTrunc
  by_cases hx : 0 ≤ x
  · have hy : 0 ≤ y := le_trans hx h
    simp only [hx, hy, if_pos]
    exact Int.floor_le_floor h
  · by_cases hy : 0 ≤ y
    · simp only [hx, hy, if_pos, if_neg, not_false_iff]
      calc ⌈x⌉ ≤ 0 := Int.ceil_le.mpr (by exact_mod_cast le_of_lt (not_le.mp hx))
        _ ≤ ⌊y⌋ := Int.floor_nonneg.mpr hy
    · simp only [hx, hy, if_neg, not_false_iff]
      exact Int.ceil_le_ceil h

theorem ratTrunc_nonneg {x : ℚ} (h : 0 ≤ x) : 0 ≤ ratTrunc x := by
  unfold ratTrunc
  simp only [h, if_pos]
  exact Int.floor_nonneg.mpr h

theorem ratTrunc_nonpos {x : ℚ} (h : x ≤ 0) : ratTrunc x ≤ 0 := by
  unfold ratTrunc
  by_cases hx : 0 ≤ x
  · have : x = 0 := le_antisymm h hx
    simp [this]
  · simp only [hx, if_neg, not_false_iff]
    exact Int.ceil_le.mpr (by exact_mod_cast h)

/-- The eight sales regions (the `REGIONS` list of the generator). -/
inductive Region where
  | CO_Rocky_Mountains
  | UT_High_Elevation
  | WY_Mountain
  | MT_Northern
  | ID_Mountain
  | CA_NV_Tahoe
  | OR_WA_Pacific_NW
  | VT_ME_NH_New_England
deriving DecidableEq, Repr

/-- The six products (the `PRODUCTS` list of the generator). -/
inductive Product where
  | Cold_Climate_Heat_Pump
  | Variable_Gas_Furnace
  | Standard_Air_Handler
  | High_Altitude_Air_Handler
  | Replacement_Parts
  | Maintenance_Contract
deriving DecidableEq, Repr

/-- The three customer segments (the `SEGMENTS` list of the generator). -/
inductive Segment where
  | B2B
  | B2G
  | B2C
deriving DecidableEq, Repr

/-- The three forecasting methods shown by the dashboard. -/
inductive Method where
  | Cortex_ML
  | XGBoost
  | Snowpark_ML
deriving DecidableEq, Repr

/-- Horizon of the generator, `WEEKS = 156`. -/
def WEEKS : ℕ := 156

def REGIONS : List Region :=
  [.CO_Rocky_Mountains, .UT_High_Elevation, .WY_Mountain, .MT_Northern,
   .ID_Mountain, .CA_NV_Tahoe, .OR_WA_Pacific_NW, .VT_ME_NH_New_England]

def PRODUCTS : List Product :=
  [.Cold_Climate_Heat_Pump, .Variable_Gas_Furnace, .Standard_Air_Handler,
   .High_Altitude_Air_Handler, .Replacement_Parts, .Maintenance_Contract]

def SEGMENTS : List Segment := [.B2B, .B2G, .B2C]

/-- Product unit prices in dollars (`PRODUCT_PRICES`). -/
def PRODUCT_PRICES : Product → ℕ
  | .Cold_Climate_Heat_Pump => 8500
  | .Variable_Gas_Furnace => 4500
  | .Standard_Air_Handler => 2800
  | .High_Altitude_Air_Handler => 3500
  | .Replacement_Parts => 350
  | .Maintenance_Contract => 1200

/-- Regional market-size multipliers (`REGION_FACTORS`). -/
def REGION_FACTORS : Region → ℚ
  | .CO_Rocky_Mountains => 15/10
  | .UT_High_Elevation => 12/10
  | .WY_Mountain => 6/10
  | .MT_Northern => 7/10
  | .ID_Mountain => 8/10
  | .CA_NV_Tahoe => 13/10
  | .OR_WA_Pacific_NW => 14/10
  | .VT_ME_NH_New_England => 11/10

/-- Customer segment mix by product (`SEGMENT_MIX`). -/
def SEGMENT_MIX : Product → Segment → ℚ
  | .Cold_Climate_Heat_Pump, .B2B => 25/100
  | .Cold_Climate_Heat_Pump, .B2G => 15/100
  | .Cold_Climate_Heat_Pump, .B2C => 60/100
  | .Variable_Gas_Furnace, .B2B => 30/100
  | .Variable_Gas_Furnace, .B2G => 20/100
  | .Variable_Gas_Furnace, .B2C => 50/100
  | .Standard_Air_Handler, .B2B => 35/100
  | .Standard_Air_Handler, .B2G => 25/100
  | .Standard_Air_Handler, .B2C => 40/100
  | .High_Altitude_Air_Handler, .B2B => 40/100
  | .High_Altitude_Air_Handler, .B2G => 30/100
  | .High_Altitude_Air_Handler, .B2C => 30/100
  | .Replacement_Parts, .B2B => 30/100
  | .Replacement_Parts, .B2G => 20/100
  | .Replacement_Parts, .B2C => 50/100
  | .Maintenance_Contract, .B2B => 45/100
  | .Maintenance_Contract, .B2G => 30/100
  | .Maintenance_Contract, .B2C => 25/100

/-- Regional base levels of the housing-starts index, the `regional_base`
dictionary inside `generate_housing_starts`. -/
def housing_regional_base : Region → ℚ
  | .CO_Rocky_Mountains => 150
  | .UT_High_Elevation => 120
  | .WY_Mountain => 40
  | .MT_Northern => 50
  | .ID_Mountain => 60
  | .CA_NV_Tahoe => 100
  | .OR_WA_Pacific_NW => 140
  | .VT_ME_NH_New_England => 80

/-- Embedding of `generate_housing_starts(week_num, region)`.  The source
computes `season_factor = sin(2*pi*week_num/52) * 0.3 + 1.0` and returns
`int(base * season_factor + normal(0, 10))`; here `sinVal` stands for the
value `sin(2*pi*week_num/52)` (always in `[-1, 1]`) and `noise` for the
Gaussian draw. -/
def generate_housing_starts (region : Region) (sinVal noise : ℚ) : ℤ :=
  ratTrunc (housing_regional_base region * (sinVal * (3/10) + 1) + noise)

/-- Embedding of `generate_economic_indicator(week_num)`: the trend
`70 + (week_num / WEEKS) * 15` plus a Gaussian draw, clamped by
`max(50, min(100, .))`. -/
def generate_economic_indicator (week_num : ℕ) (noise : ℚ) : ℚ :=
  max 50 (min 100 (70 + ((week_num : ℚ) / (WEEKS : ℚ)) * 15 + noise))

/-- The economic multiplier computed in `generate_hvac_data`:
`0.7 + (economic_index / 100) * 0.6`. -/
def economic_factor (economic_index : ℚ) : ℚ :=
  7/10 + (economic_index / 100) * (6/10)

/-- Embedding of `calculate_seasonality_factor(week_num, product)`.  The
branch structure mirrors the Python `if/elif` chain exactly: heating products
are tested first (membership in the two-element list), then the substring
test `'Air_Handler' in product` (true exactly for the two air-handler
products), then replacement parts, then maintenance contracts.  Python
`range(a, b)` membership is `a <= w < b`. -/
def calculate_seasonality_factor (week_num : ℕ) (product : Product) : ℚ :=
  let week_of_year := week_num % 52
  match product with
  | .Cold_Climate_Heat_Pump | .Variable_Gas_Furnace =>
      if 35 ≤ week_of_year ∧ week_of_year ≤ 45 then 18/10
      else if 45 ≤ week_of_year ∨ week_of_year ≤ 10 then 15/10
      else if 10 < week_of_year ∧ week_of_year ≤ 20 then 11/10
      else 6/10
  | .Standard_Air_Handler | .High_Altitude_Air_Handler =>
      if (15 ≤ week_of_year ∧ week_of_year < 25) ∨
         (35 ≤ week_of_year ∧ week_of_year < 45) then 13/10
      else 1
  | .Replacement_Parts =>
      if 48 ≤ week_of_year ∨ week_of_year ≤ 8 then 17/10
      else 1
  | .Maintenance_Contract =>
      if (12 ≤ week_of_year ∧ week_of_year < 22) ∨
         (38 ≤ week_of_year ∧ week_of_year < 48) then 14/10
      else 9/10

/-- Modelled from the words of the specification claim about seasonality:
the value the spec assigns to a given week-of-year (already reduced modulo
52) and product, with the enumerated inclusive ranges (1.8 for 35 to 45,
1.5 for 46 to 51 and 0 to 10, 1.1 for 11 to 20, 0.6 for 21 to 34; air
handlers 1.3 for 15 to 24 and 35 to 44 else 1.0; replacement parts 1.7 for
48 to 51 and 0 to 8 else 1.0; maintenance 1.4 for 12 to 21 and 38 to 47
else 0.9).  Used only to compare the source function against the claim. -/
def claimed_seasonality (week_of_year : ℕ) (product : Product) : ℚ :=
  match product with
  | .Cold_Climate_Heat_Pump | .Variable_Gas_Furnace =>
      if 35 ≤ week_of_year ∧ week_of_year ≤ 45 then 18/10
      else if (46 ≤ week_of_year ∧ week_of_year ≤ 51) ∨ week_of_year ≤ 10 then 15/10
      else if 11 ≤ week_of_year ∧ week_of_year ≤ 20 then 11/10
      else 6/10
  | .Standard_Air_Handler | .High_Altitude_Air_Handler =>
      if (15 ≤ week_of_year ∧ week_of_year ≤ 24) ∨
         (35 ≤ week_of_year ∧ week_of_year ≤ 44) then 13/10
      else 1
  | .Replacement_Parts =>
      if (48 ≤ week_of_year ∧ week_of_year ≤ 51) ∨ week_of_year ≤ 8 then 17/10
      else 1
  | .Maintenance_Contract =>
      if (12 ≤ week_of_year ∧ week_of_year ≤ 21) ∨
         (38 ≤ week_of_year ∧ week_of_year ≤ 47) then 14/10
      else 9/10

/-- Base weekly demand per product, `generate_base_demand(product)`. -/
def generate_base_demand : Product → ℚ
  | .Cold_Climate_Heat_Pump => 45
  | .Variable_Gas_Furnace => 55
  | .Standard_Air_Handler => 35
  | .High_Altitude_Air_Handler => 28
  | .Replacement_Parts => 180
  | .Maintenance_Contract => 25

/-- The growth multiplier `1.0 + (week_num / WEEKS) * 0.45`. -/
def growth_factor (week_num : ℕ) : ℚ :=
  1 + ((week_num : ℚ) / (WEEKS : ℚ)) * (45/100)

/-- The per-cell total demand of `generate_hvac_data`, as a function of the
six multiplier values and the multiplicative demand noise draw:
`max(0, int(base * region * seasonality * temp * housing * economic * growth
* noise))`.  The six factor values other than growth are taken as explicit
parameters so that they can be held fixed while the week varies. -/
def total_demand_cell (base regionF seasonality tempF housingF econF : ℚ)
    (week_num : ℕ) (noise : ℚ) : ℤ :=
  max 0 (ratTrunc (base * regionF * seasonality * tempF * housingF * econF *
    growth_factor week_num * noise))

/-- The segment split `segment_demand = int(total_demand * segment_pct)`;
`total_demand` is a non-negative integer, so the result is non-negative. -/
def segment_demand (total_demand : ℕ) (product : Product) (segment : Segment) : ℕ :=
  (ratTrunc ((total_demand : ℚ) * SEGMENT_MIX product segment)).toNat

/-- The row-retention test of `generate_hvac_data`:
`segment_demand > 0 or np.random.random() > 0.7`, with `draw` standing for
the uniform `[0, 1)` draw. -/
def keepRow (seg_demand : ℕ) (draw : ℚ) : Bool :=
  decide (0 < seg_demand) || decide (7/10 < draw)

/-- Rounding to two decimal places, the `round(revenue, 2)` call.  Every
revenue value produced by the generator has an exact two-decimal
representation, so the tie-breaking rule of the Python float `round` never
matters for these values. -/
def round2 (x : ℚ) : ℚ :=
  ((round (100 * x) : ℤ) : ℚ) / 100

/-- The revenue computation of `generate_hvac_data`: demand times unit
price, with the 8 percent B2G discount and the 5 percent B2B discount
applied only when demand is positive, then rounded to two decimals. -/
def revenue (product : Product) (segment : Segment) (seg_demand : ℕ) : ℚ :=
  round2 (if segment = .B2G ∧ 0 < seg_demand then
            (seg_demand : ℚ) * (PRODUCT_PRICES product : ℚ) * (92/100)
          else if segment = .B2B ∧ 0 < seg_demand then
            (seg_demand : ℚ) * (PRODUCT_PRICES product : ℚ) * (95/100)
          else (seg_demand : ℚ) * (PRODUCT_PRICES product : ℚ))

/-- The season flag columns of an emitted record, as computed from the
calendar month of the week start date (`week_date.month`, always in 1..12):
`(IS_WINTER, IS_SPRING, IS_SUMMER, IS_FALL)`. -/
def season_flags (month : ℕ) : ℕ × ℕ × ℕ × ℕ :=
  ((if month = 12 ∨ month = 1 ∨ month = 2 then 1 else 0),
   (if month = 3 ∨ month = 4 ∨ month = 5 then 1 else 0),
   (if month = 6 ∨ month = 7 ∨ month = 8 then 1 else 0),
   (if month = 9 ∨ month = 10 ∨ month = 11 then 1 else 0))

/-- One candidate cell of the generation loop: week number, region,
product, customer segment, in the nesting order of the four loops. -/
abbrev Cell := ℕ × Region × Product × Segment

/-- The candidate cells enumerated by the nested loops of
`generate_hvac_data`, in loop order: weeks 0..155, then regions, then
products, then segments.  `List.product` unfolds to exactly the nested
flatMap/map structure of the loops. -/
def candidates : List Cell :=
  (List.range WEEKS) ×ˢ (REGIONS ×ˢ (PRODUCTS ×ˢ SEGMENTS))

/-- The rows actually appended to `records`, given an oracle `total` for the
per-(week, region, product) total demand (which absorbs all the factor and
noise computations) and an oracle `draw` for the per-cell uniform retention
draw. -/
def emittedRows (total : ℕ → Region → Product → ℕ)
    (draw : ℕ → Region → Product → Segment → ℚ) : List Cell :=
  candidates.filter fun c =>
    keepRow (segment_demand (total c.1 c.2.1 c.2.2.1) c.2.2.1 c.2.2.2)
      (draw c.1 c.2.1 c.2.2.1 c.2.2.2)

/-- The key of an emitted record,
`(WEEK_START_DATE, REGION, PRODUCT, CUSTOMER_SEGMENT)`; the week start date
is `START_DATE + 7 * week_num` days, represented by its day offset `7 *
week_num`, which determines the formatted date string injectively. -/
def rowKey (c : Cell) : ℕ × Region × Product × Segment :=
  (7 * c.1, c.2.1, c.2.2.1, c.2.2.2)

/-- A row of the combined forecast view `ALL_METHODS_COMBINED` read by the
dashboard. -/
structure ForecastRow where
  week_start_date : ℕ
  region : Region
  product : Product
  customer_segment : Segment
  forecast_demand : ℚ
  method : Method
deriving DecidableEq, Repr

/-- A row of the historical table `HVAC_DEMAND_RAW` read by the dashboard. -/
structure HistRow where
  week_start_date : ℕ
  region : Region
  product : Product
  customer_segment : Segment
  demand_units : ℕ
deriving DecidableEq, Repr

/-- The sidebar filter state: the four multiselect widgets. -/
structure FilterSelection where
  regions : List Region
  products : List Product
  segments : List Segment
  methods : List Method
deriving Repr

/-- Whether a forecast row passes the four `isin` filters of the dashboard. -/
def matchesSelection (sel : FilterSelection) (r : ForecastRow) : Bool :=
  sel.regions.contains r.region &&
  sel.products.contains r.product &&
  sel.segments.contains r.customer_segment &&
  sel.methods.contains r.method

/-- The filtered working set `df_filtered` of the dashboard. -/
def df_filtered (rows : List ForecastRow) (sel : FilterSelection) : List ForecastRow :=
  rows.filter (matchesSelection sel)

/-- Outcome of the guard that follows the filtering step: either the warning
is shown and rendering stops (`st.warning` then `st.stop`), or rendering
proceeds to the tabs. -/
inductive RenderOutcome where
  | warned
  | rendered
deriving DecidableEq, Repr

/-- The empty-filter guard of the dashboard: warn and stop when
`df_filtered` is empty, otherwise continue to the tab rendering.  The guard
is a total function: no exception is raised on either path. -/
def renderDashboard (rows : List ForecastRow) (sel : FilterSelection) : RenderOutcome :=
  if (df_filtered rows sel).isEmpty then .warned else .rendered

/-- One line of the accuracy table: mean absolute error, root mean squared
error, coefficient of determination. -/
structure MethodMetrics where
  mae : ℚ
  rmse : ℚ
  r2 : ℚ
deriving DecidableEq, Repr

/-- The static `metrics_data` table of `calculate_accuracy_metrics`, in the
order of the source lists: Cortex ML, XGBoost, Snowpark ML. -/
def metricsTable : List (Method × MethodMetrics) :=
  [(.Cortex_ML, ⟨523/10, 685/10, 87/100⟩),
   (.XGBoost, ⟨458/10, 621/10, 91/100⟩),
   (.Snowpark_ML, ⟨482/10, 653/10, 89/100⟩)]

/-- The distinct week start dates of the historical data after sorting by
`WEEK_START_DATE`, the `df_hist_sorted['WEEK_START_DATE'].unique()` value. -/
def uniqueSortedWeeks (hist : List HistRow) : List ℕ :=
  ((hist.map HistRow.week_start_date).insertionSort (· ≤ ·)).dedup

/-- Python negative indexing `l[-k]` with the quirk that `-0` is `0`, as in
`unique()[-holdout_weeks]` when `holdout_weeks` is zero. -/
def pyNegIndex (l : List ℕ) (k : ℕ) : ℕ :=
  if k = 0 then l.getD 0 0 else l.getD (l.length - k) 0

/-- Embedding of `calculate_accuracy_metrics()` of the dashboard: the
holdout window (20 percent of the distinct historical weeks, truncated) and
its start date are computed from the historical data, but the returned
metrics table is the static `metrics_data` constant.  The forecast data is
not consulted at all. -/
def calculate_accuracy_metrics (hist : List HistRow) :
    List (Method × MethodMetrics) × ℕ × ℕ :=
  let weeks := uniqueSortedWeeks hist
  let total_weeks := weeks.length
  let holdout_weeks := total_weeks * 2 / 10
  let holdout_start_date := pyNegIndex weeks holdout_weeks
  (metricsTable, holdout_start_date, holdout_weeks)

/-- What the accuracy tab displays, as a function of both loaded datasets:
the metrics come from `calculate_accuracy_metrics`, which reads only the
historical data (and in fact returns a constant table). -/
def displayedMetrics (hist : List HistRow) (forecasts : List ForecastRow) :
    List (Method × MethodMetrics) :=
  (calculate_accuracy_metrics hist).1

/-! ## Theorems -/

/-- Claim C1, counterexample: the housing-starts value is NOT non-negative
for every possible value of the Gaussian noise draw.  At week 0 (where
`sin(2*pi*week/52) = 0` exactly) in region `WY_Mountain` the deterministic
part is `40`, so a noise draw of `-41` (4.1 sigma, possible for a Gaussian)
yields `int(40 - 41) = -1 < 0`. -/
theorem housing_starts_negative_cex :
    generate_housing_starts Region.WY_Mountain 0 (-41) < 0 := by
  have hx : housing_regional_base Region.WY_Mountain * ((0 : ℚ) * (3/10) + 1) + (-41) =
      ((-1 : ℤ) : ℚ) := by
    norm_num [housing_regional_base]
  unfold generate_housing_starts ratTrunc
  rw [hx, if_neg (by norm_num), Int.ceil_intCast]
  norm_num

/-- Claim C1, amended: for every region, every value of
`sin(2*pi*week/52)` in `[-1, 1]` (hence every week), and every noise draw of
at least `-28`, the housing-starts value is non-negative: the deterministic
part `base * (1 + 0.3 * sin)` is at least `40 * 0.7 = 28` by construction of
the base levels. -/
theorem housing_starts_nonneg (region : Region) (sinVal noise : ℚ)
    (hs₁ : -1 ≤ sinVal) (hs₂ : sinVal ≤ 1) (hn : -28 ≤ noise) :
    0 ≤ generate_housing_starts region sinVal noise := by
  unfold generate_housing_starts
  apply ratTrunc_nonneg
  have hb : (40 : ℚ) ≤ housing_regional_base region := by
    cases region <;> norm_num [housing_regional_base]
  have hf : (7/10 : ℚ) ≤ sinVal * (3/10) + 1 := by linarith
  have h28 : (28 : ℚ) ≤ housing_regional_base region * (sinVal * (3/10) + 1) := by
    calc (28 : ℚ) = 40 * (7/10) := by norm_num
      _ ≤ housing_regional_base region * (sinVal * (3/10) + 1) :=
          mul_le_mul hb hf (by norm_num) (by linarith)
  linarith

/-- Witness for the amended claim C1 at region CO, sine value 0 (week 0),
noise 0. -/
theorem housing_starts_nonneg_witness :
    (-1 : ℚ) ≤ 0 ∧ (0 : ℚ) ≤ 1 ∧ (-28 : ℚ) ≤ 0 ∧
      0 ≤ generate_housing_starts Region.CO_Rocky_Mountains 0 0 :=
  ⟨by norm_num, by norm_num, by norm_num,
   housing_starts_nonneg Region.CO_Rocky_Mountains 0 0 (by norm_num) (by norm_num)
     (by norm_num)⟩

/-- Claim C2: the economic index equals the linear 70-to-85 trend plus the
noise draw clamped into `[50, 100]`, it always lies in `[50, 100]`, and the
economic factor `0.7 + (index/100) * 0.6` computed from it always lies in
`[0.7, 1.3]`. -/
theorem economic_indicator_range (week_num : ℕ) (noise : ℚ) :
    generate_economic_indicator week_num noise =
      max 50 (min 100 (70 + ((week_num : ℚ) / 156) * 15 + noise)) ∧
    50 ≤ generate_economic_indicator week_num noise ∧
    generate_economic_indicator week_num noise ≤ 100 ∧
    7/10 ≤ economic_factor (generate_economic_indicator week_num noise) ∧
    economic_factor (generate_economic_indicator week_num noise) ≤ 13/10 := by
  have h50 : (50 : ℚ) ≤ generate_economic_indicator week_num noise :=
    le_max_left _ _
  have h100 : generate_economic_indicator week_num noise ≤ 100 := by
    unfold generate_economic_indicator
    apply max_le (by norm_num)
    exact min_le_left _ _
  refine ⟨rfl, h50, h100, ?_, ?_⟩
  · unfold economic_factor; linarith
  · unfold economic_factor; linarith

/-- Claim C3: a row is emitted exactly when the segment demand is positive,
or the segment demand is zero and the uniform retention draw exceeds 0.7
(the draw lies in `[0, 1)`, so the retention set for a zero-demand row is
the interval `(0.7, 1)`, of measure 0.3). -/
theorem row_retention_iff (seg_demand : ℕ) (draw : ℚ) :
    keepRow seg_demand draw = true ↔
      0 < seg_demand ∨ (seg_demand = 0 ∧ 7/10 < draw) := by
  unfold keepRow
  rcases Nat.eq_zero_or_pos seg_demand with h | h
  · subst h
    simp
  · simp [h, Nat.pos_iff_ne_zero.mp h]

/-- Rounding a rational with an exact two-decimal representation is the
identity: the generator only ever rounds such values. -/
theorem round2_eq_self {x : ℚ} (n : ℤ) (h : 100 * x = (n : ℚ)) :
    round2 x = x := by
  unfold round2
  rw [h, round_intCast, ← h]
  ring

/-- Claim C4: revenue equals demand times unit price with the exact 8
percent B2G and 5 percent B2B discounts applied only for positive demand
(the two-decimal rounding is exact on these values), it is never negative,
and it never exceeds the undiscounted amount. -/
theorem revenue_discount_bounds (p : Product) (s : Segment) (d : ℕ) :
    revenue p s d =
      (if s = Segment.B2G ∧ 0 < d then
        (d : ℚ) * (PRODUCT_PRICES p : ℚ) * (92/100)
      else if s = Segment.B2B ∧ 0 < d then
        (d : ℚ) * (PRODUCT_PRICES p : ℚ) * (95/100)
      else (d : ℚ) * (PRODUCT_PRICES p : ℚ)) ∧
    0 ≤ revenue p s d ∧
    revenue p s d ≤ (d : ℚ) * (PRODUCT_PRICES p : ℚ) := by
  have hbase0 : (0 : ℚ) ≤ (d : ℚ) * (PRODUCT_PRICES p : ℚ) := by positivity
  by_cases hG : s = Segment.B2G ∧ 0 < d
  · have hrev : revenue p s d = (d : ℚ) * (PRODUCT_PRICES p : ℚ) * (92/100) := by
      rw [revenue, if_pos hG]
      exact round2_eq_self ((d * PRODUCT_PRICES p * 92 : ℕ) : ℤ) (by push_cast; ring)
    refine ⟨by rw [hrev, if_pos hG], by rw [hrev]; positivity, ?_⟩
    rw [hrev]
    exact mul_le_of_le_one_right hbase0 (by norm_num)
  · by_cases hB : s = Segment.B2B ∧ 0 < d
    · have hrev : revenue p s d = (d : ℚ) * (PRODUCT_PRICES p : ℚ) * (95/100) := by
        rw [revenue, if_neg hG, if_pos hB]
        exact round2_eq_self ((d * PRODUCT_PRICES p * 95 : ℕ) : ℤ) (by push_cast; ring)
      refine ⟨by rw [hrev, if_neg hG, if_pos hB], by rw [hrev]; positivity, ?_⟩
      rw [hrev]
      exact mul_le_of_le_one_right hbase0 (by norm_num)
    · have hrev : revenue p s d = (d : ℚ) * (PRODUCT_PRICES p : ℚ) := by
        rw [revenue, if_neg hG, if_neg hB]
        exact round2_eq_self ((d * PRODUCT_PRICES p * 100 : ℕ) : ℤ) (by push_cast; ring)
      exact ⟨by rw [hrev, if_neg hG, if_neg hB], by rw [hrev]; positivity,
        le_of_eq hrev⟩

/-- Claim C5: the seasonality step function of the source agrees, at every
week number and every product, with the table enumerated by the
specification (stated on the reduced week-of-year `week mod 52`), including
the overlap rule that week 45 takes the fall peak 1.8 for heating
products. -/
theorem seasonality_matches_claim (week_num : ℕ) (p : Product) :
    calculate_seasonality_factor week_num p =
      claimed_seasonality (week_num % 52) p := by
  have hw : week_num % 52 < 52 := Nat.mod_lt _ (by norm_num)
  cases p <;>
    simp only [calculate_seasonality_factor, claimed_seasonality] <;>
    split_ifs <;> first | rfl | (exfalso; omega)

/-- Constant total-demand oracle used by concrete witnesses. -/
def totalOracle : ℕ → Region → Product → ℕ := fun _ _ _ => 4

/-- Constant retention-draw oracle used by concrete witnesses. -/
def drawOracle : ℕ → Region → Product → Segment → ℚ := fun _ _ _ _ => 0

/-- Claim C6: a generation run enumerates exactly 156 * 8 * 6 * 3 = 22464
candidate cells, and for every choice of demand and retention draws the
emitted rows have pairwise distinct (week start date, region, product,
segment) keys, with one row per candidate key exactly when the retention
test keeps it. -/
theorem candidates_count_and_unique_keys :
    candidates.length = 22464 ∧
    ∀ (total : ℕ → Region → Product → ℕ)
      (draw : ℕ → Region → Product → Segment → ℚ),
      ((emittedRows total draw).map rowKey).Nodup ∧
      ∀ c : Cell, c ∈ candidates →
        (c ∈ emittedRows total draw ↔
          keepRow (segment_demand (total c.1 c.2.1 c.2.2.1) c.2.2.1 c.2.2.2)
            (draw c.1 c.2.1 c.2.2.1 c.2.2.2) = true) := by
  have hnodup : candidates.Nodup :=
    (List.nodup_range WEEKS).product
      ((by decide : REGIONS.Nodup).product
        ((by decide : PRODUCTS.Nodup).product (by decide : SEGMENTS.Nodup)))
  refine ⟨?_, fun total draw => ⟨?_, fun c hc => ?_⟩⟩
  · rw [candidates, List.length_product, List.length_product, List.length_product,
      List.length_range]
    rfl
  · have hinj : Function.Injective rowKey := by
      rintro ⟨w1, r1, p1, s1⟩ ⟨w2, r2, p2, s2⟩ h
      simp only [rowKey, Prod.mk.injEq] at h
      obtain ⟨h1, h2, h3, h4⟩ := h
      have : w1 = w2 := by omega
      simp_all
    exact ((hnodup.filter _).map hinj)
  · simp [emittedRows, List.mem_filter, hc]

/-- Witness for claim C6 at the first candidate cell and the constant
oracles. -/
theorem candidates_count_and_unique_keys_witness :
    ((0, Region.CO_Rocky_Mountains, Product.Cold_Climate_Heat_Pump,
        Segment.B2B) : Cell) ∈ candidates ∧
    (((0, Region.CO_Rocky_Mountains, Product.Cold_Climate_Heat_Pump,
        Segment.B2B) : Cell) ∈ emittedRows totalOracle drawOracle ↔
      keepRow
        (segment_demand
          (totalOracle 0 Region.CO_Rocky_Mountains Product.Cold_Climate_Heat_Pump)
          Product.Cold_Climate_Heat_Pump Segment.B2B)
        (drawOracle 0 Region.CO_Rocky_Mountains Product.Cold_Climate_Heat_Pump
          Segment.B2B) = true) :=
  ⟨by decide,
   (candidates_count_and_unique_keys.2 totalOracle drawOracle).2 _ (by decide)⟩

/-- Claim C7: with the region, product, noise, temperature, economic and
housing factors held fixed, the per-cell total demand is non-decreasing in
the week number, because the growth factor 1 + (week/156) * 0.45 is
non-decreasing and the truncation and the floor at zero are monotone. -/
theorem total_demand_monotone_in_week
    (base regionF seasonality tempF housingF econF noise : ℚ)
    (w₁ w₂ : ℕ) (h : w₁ ≤ w₂) :
    total_demand_cell base regionF seasonality tempF housingF econF w₁ noise ≤
      total_demand_cell base regionF seasonality tempF housingF econF w₂ noise := by
  have hw : (w₁ : ℚ) ≤ (w₂ : ℚ) := Nat.cast_le.mpr h
  have hg : growth_factor w₁ ≤ growth_factor w₂ := by
    unfold growth_factor WEEKS
    push_cast
    linarith
  have hg0 : ∀ v : ℕ, (0 : ℚ) ≤ growth_factor v := by
    intro v
    unfold growth_factor
    positivity
  have key : ∀ v : ℕ,
      base * regionF * seasonality * tempF * housingF * econF *
          growth_factor v * noise =
        (base * regionF * seasonality * tempF * housingF * econF * noise) *
          growth_factor v := fun v => by ring
  unfold total_demand_cell
  rw [key w₁, key w₂]
  rcases le_or_lt 0 (base * regionF * seasonality * tempF * housingF * econF * noise)
    with hK | hK
  · exact max_le_max le_rfl (ratTrunc_mono (mul_le_mul_of_nonneg_left hg hK))
  · have h₁ : (base * regionF * seasonality * tempF * housingF * econF * noise) *
        growth_factor w₁ ≤ 0 := by
      have := mul_le_mul_of_nonneg_right hK.le (hg0 w₁)
      simpa using this
    have h₂ : (base * regionF * seasonality * tempF * housingF * econF * noise) *
        growth_factor w₂ ≤ 0 := by
      have := mul_le_mul_of_nonneg_right hK.le (hg0 w₂)
      simpa using this
    rw [max_eq_left (ratTrunc_nonpos h₁), max_eq_left (ratTrunc_nonpos h₂)]

/-- Witness for claim C7 with all factors 1 and weeks 0 and 1. -/
theorem total_demand_monotone_in_week_witness :
    0 ≤ 1 ∧
    total_demand_cell 1 1 1 1 1 1 0 1 ≤ total_demand_cell 1 1 1 1 1 1 1 1 :=
  ⟨by decide, total_demand_monotone_in_week 1 1 1 1 1 1 1 0 1 (by decide)⟩

/-- Claim C8: the dashboard warns and halts exactly when no forecast row
passes the four filters, and renders the tabs exactly when at least one row
does; the guard is a total function, so no exception is raised either
way. -/
theorem empty_filter_guard (rows : List ForecastRow) (sel : FilterSelection) :
    (renderDashboard rows sel = RenderOutcome.warned ↔
      ∀ r ∈ rows, matchesSelection sel r = false) ∧
    (renderDashboard rows sel = RenderOutcome.rendered ↔
      ∃ r ∈ rows, matchesSelection sel r = true) := by
  unfold renderDashboard df_filtered
  by_cases h : rows.filter (matchesSelection sel) = []
  · rw [List.filter_eq_nil_iff] at h
    constructor
    · simp only [List.isEmpty_iff, List.filter_eq_nil_iff]
      constructor
      · intro _ r hr
        exact Bool.not_eq_true _ ▸ (Bool.eq_false_iff.mpr (h r hr))
      · intro hall
        rw [if_pos]
        exact fun r hr => h r hr
    · simp only [List.isEmpty_iff, List.filter_eq_nil_iff]
      rw [if_pos (fun r hr => h r hr)]
      constructor
      · intro hcontra
        exact absurd hcontra (by simp)
      · rintro ⟨r, hr, hmatch⟩
        exact absurd hmatch (by simpa using h r hr)
  · have hne : ¬(rows.filter (matchesSelection sel)).isEmpty = true := by
      simpa [List.isEmpty_iff] using h
    rw [if_neg hne]
    obtain ⟨r, hr⟩ := List.exists_mem_of_ne_nil _ h
    have hrmem := List.mem_filter.mp hr
    constructor
    · constructor
      · intro hcontra
        exact absurd hcontra (by simp)
      · intro hall
        exact absurd (hall r hrmem.1) (by simp [hrmem.2])
    · exact ⟨fun _ => ⟨r, hrmem.1, hrmem.2⟩, fun _ => rfl⟩

/-- Claim C9: the MAE, RMSE and R squared values displayed by the accuracy
tab are the fixed constants of the source, identical for any two loaded
historical and forecast datasets, even though the holdout start date
returned alongside them does depend on the historical data. -/
theorem accuracy_metrics_static :
    (∀ (h₁ h₂ : List HistRow) (f₁ f₂ : List ForecastRow),
        displayedMetrics h₁ f₁ = displayedMetrics h₂ f₂) ∧
    (∀ (h : List HistRow) (f : List ForecastRow),
        displayedMetrics h f =
          [(Method.Cortex_ML, ⟨523/10, 685/10, 87/100⟩),
           (Method.XGBoost, ⟨458/10, 621/10, 91/100⟩),
           (Method.Snowpark_ML, ⟨482/10, 653/10, 89/100⟩)]) ∧
    (∃ (h₁ h₂ : List HistRow),
        (calculate_accuracy_metrics h₁).2.1 ≠ (calculate_accuracy_metrics h₂).2.1) := by
  refine ⟨fun _ _ _ _ => rfl, fun _ _ => rfl, ?_⟩
  refine ⟨[⟨0, .CO_Rocky_Mountains, .Cold_Climate_Heat_Pump, .B2B, 0⟩],
          [⟨7, .CO_Rocky_Mountains, .Cold_Climate_Heat_Pump, .B2B, 0⟩], ?_⟩
  decide

/-- Claim C10: for every calendar month (1 to 12), each of the four season
flags is 0 or 1 and exactly one of them is 1, winter for months 12, 1, 2,
spring for 3, 4, 5, summer for 6, 7, 8 and fall for 9, 10, 11. -/
theorem season_flags_exactly_one (month : ℕ) (h₁ : 1 ≤ month) (h₂ : month ≤ 12) :
    (season_flags month).1 ≤ 1 ∧ (season_flags month).2.1 ≤ 1 ∧
    (season_flags month).2.2.1 ≤ 1 ∧ (season_flags month).2.2.2 ≤ 1 ∧
    (season_flags month).1 + (season_flags month).2.1 +
      (season_flags month).2.2.1 + (season_flags month).2.2.2 = 1 := by
  interval_cases month <;> decide

/-- Witness for claim C10 at month 7 (a summer week). -/
theorem season_flags_exactly_one_witness :
    1 ≤ 7 ∧ 7 ≤ 12 ∧
    ((season_flags 7).1 ≤ 1 ∧ (season_flags 7).2.1 ≤ 1 ∧
      (season_flags 7).2.2.1 ≤ 1 ∧ (season_flags 7).2.2.2 ≤ 1 ∧
      (season_flags 7).1 + (season_flags 7).2.1 +
        (season_flags 7).2.2.1 + (season_flags 7).2.2.2 = 1) :=
  ⟨by decide, by decide, season_flags_exactly_one 7 (by decide) (by decide)⟩

end ForecastHOL
